import Mathlib

/-!
Verification of the PSS signing-method plugin (`jwtkms` package,
`kms_pss_signingmethod.go`) against its natural-language specification.

The single source file defines `PSSSigningMethod.Verify` and the shared
local-verification helper `localVerifyPSS`.  External collaborators
(the JWT library's base64url decoder and fallback PSS verifier, the Go
standard library's hashing, `x509.ParsePKIXPublicKey` and
`rsa.VerifyPSS`, and the remote KMS gateway) are modelled as opaque
oracles collected in an environment structure `Env`.  Repository code
that is referenced by the source file but not itself part of it
(`Config`, the process-wide `pubkeyCache`, the shared remote helper
`verifyRSAOrPSS`) is modelled from the specification, and marked so.

The embedding returns, besides the Go error value (`Option VerifyError`,
`none` meaning a nil error, i.e. success), the resulting cache state and
counters for the observable effects (gateway `GetPublicKey` calls,
remote-verify delegations, fallback delegations, base64url decodes and
hash computations), so that the frame conditions of the specification
can be stated and proved.
-/

namespace Jwtkms

/-- Byte strings are modelled as lists of naturals. -/
abbrev Bytes := List Nat

/-- A public key object as returned by `x509.ParsePKIXPublicKey`: either an
RSA public key (the only family the PSS engine accepts, abstracted to an
identifier) or a key of some other algorithm family (e.g. ECDSA). -/
inductive PubKey where
  | rsa (k : Nat)
  | nonRSA (k : Nat)
  deriving DecidableEq, Repr

/-- Modelled from the spec: the Signing Configuration type `Config`
(declared elsewhere in the repository, not in the provided source file).
Per §3 it binds a key identifier and a verify-with-remote flag; the
gateway handle and cancellation context it also carries are folded into
the oracle environment `Env`. -/
structure Config where
  kmsKeyID : String
  verifyWithKMS : Bool
  deriving DecidableEq, Repr

/-- The dynamic `interface{}` key argument of `Verify`: a Signing
Configuration pointer, a raw in-process `*rsa.PublicKey`, the nil
interface, or a value of any other type (carrying a tag, e.g. a string).
Go type assertions on a nil interface fail, so `nilKey` matches neither
`*Config` nor `*rsa.PublicKey`. -/
inductive KeyConfig where
  | config (cfg : Config)
  | rsaPublicKey (k : Nat)
  | nilKey
  | other (tag : String)
  deriving DecidableEq, Repr

/-- Modelled from the spec: the process-wide Public-Key Cache
`pubkeyCache` (declared elsewhere in the repository, not in the provided
source file).  Per §4.1 it is a mapping from key identifier to public
key with `Get` and `Add`; modelled as an association list. -/
abbrev Cache := List (String × PubKey)

/-- Modelled from the spec: cache `Get(keyID)` — non-blocking lookup,
returns the most recently added entry for the identifier, or absent. -/
def cacheGet (c : Cache) (key : String) : Option PubKey :=
  match c with
  | [] => none
  | (k, v) :: rest => if k = key then some v else cacheGet rest key

/-- Modelled from the spec: cache `Add(keyID, publicKey)` — idempotent
overwrite; a prior `Add` makes a subsequent `Get` return that value. -/
def cacheAdd (c : Cache) (key : String) (v : PubKey) : Cache :=
  (key, v) :: c

/-- `rsa.PSSOptions`: the source passes the zero value
`&rsa.PSSOptions{}` (salt length 0 = auto, no explicit override). -/
structure PSSOptions where
  saltLength : Int
  deriving DecidableEq, Repr

/-- The zero-value PSS options the source constructs at the call site:
default options, no explicit salt length override. -/
def defaultPSSOptions : PSSOptions := ⟨0⟩

/-- The Go error values the verification paths can produce.  Each
constructor corresponds to one error construction site; wrapped causes
(`fmt.Errorf("...: %w", err)`) carry the underlying cause. -/
inductive VerifyError where
  | invalidKeyType
  | decodeError (cause : String)
  | hashUnavailable
  | gatewayError (cause : String)
  | keyParseError (cause : String)
  | keyTypeError (msg : String)
  | signatureInvalid (cause : String)
  | fallback (cause : String)
  | remote (cause : String)
  deriving DecidableEq, Repr

/-- Oracle environment for the external collaborators and for repository
code outside the provided source file.
  * `decodeSegment` — the JWT library's base64url decoder.
  * `hashAvailable`, `hashSum` — `crypto.Hash.Available` and hashing the
    signing string (the hash is identified by a numeric tag).
  * `getPublicKey` — the gateway `GetPublicKey` operation (error =
    transport/service failure).
  * `parsePKIX` — `x509.ParsePKIXPublicKey` on the returned material.
  * `verifyPSS` — `rsa.VerifyPSS(key, hash, digest, sig, opts)`; `none`
    means the signature checks out, `some cause` a failure.
  * `remoteVerify` — modelled from the spec: the shared algorithm-aware
    remote verify helper `verifyRSAOrPSS` (repository code not in the
    provided source file), taken as an opaque outcome.
  * `fallbackVerify` — the standard in-process
    `jwt.SigningMethodRSAPSS.Verify` of the JWT library. -/
structure Env where
  decodeSegment : String → Except String Bytes
  hashAvailable : Nat → Bool
  hashSum : Nat → String → Bytes
  getPublicKey : String → Except String Bytes
  parsePKIX : Bytes → Except String PubKey
  verifyPSS : Nat → Nat → Bytes → Bytes → PSSOptions → Option String
  remoteVerify : Config → String → Bytes → Bytes → Option VerifyError
  fallbackVerify : String → String → Nat → Option VerifyError

/-- Result of the local-verification helper: the returned error (`none` =
nil = success), the cache state afterwards, and how many gateway
`GetPublicKey` calls were made. -/
structure LocalResult where
  outcome : Option VerifyError
  cache : Cache
  getPublicKeyCalls : Nat
  deriving DecidableEq, Repr

/-- The tail of `localVerifyPSS` after the key object is in hand
(source lines 73–82): assert the key is `*rsa.PublicKey`, failing with
`errors.New("invalid key type for key")` otherwise, then call
`rsa.VerifyPSS` with the zero-value options, wrapping a failure as
`"verifying signature locally: %w"`. -/
def checkResolvedKey (env : Env) (hash : Nat) (hashedSigningString sig : Bytes)
    (cache : Cache) (calls : Nat) (cachedKey : PubKey) : LocalResult :=
  match cachedKey with
  | PubKey.rsa k =>
    match env.verifyPSS k hash hashedSigningString sig defaultPSSOptions with
    | none => ⟨none, cache, calls⟩
    | some cause => ⟨some (VerifyError.signatureInvalid cause), cache, calls⟩
  | PubKey.nonRSA _ => ⟨some (VerifyError.keyTypeError "invalid key type for key"), cache, calls⟩

/-- `localVerifyPSS` (source lines 53–83): look the key identifier up in
the process-wide cache; on a miss call the gateway `GetPublicKey`
(wrapping failure as `"getting public key: %w"`), parse the material
with `x509.ParsePKIXPublicKey` (wrapping failure as
`"parsing public key: %w"`), and `Add` the parsed key to the cache;
then type-assert and verify (`checkResolvedKey`). -/
def localVerifyPSS (env : Env) (cfg : Config) (hash : Nat)
    (hashedSigningString sig : Bytes) (cache : Cache) : LocalResult :=
  match cacheGet cache cfg.kmsKeyID with
  | some cachedKey =>
    checkResolvedKey env hash hashedSigningString sig cache 0 cachedKey
  | none =>
    match env.getPublicKey cfg.kmsKeyID with
    | Except.error e => ⟨some (VerifyError.gatewayError e), cache, 1⟩
    | Except.ok material =>
      match env.parsePKIX material with
      | Except.error e => ⟨some (VerifyError.keyParseError e), cache, 1⟩
      | Except.ok cachedKey =>
        checkResolvedKey env hash hashedSigningString sig
          (cacheAdd cache cfg.kmsKeyID cachedKey) 1 cachedKey

/-- The PSS signing-method descriptor: algorithm name tag (`m.algo`) and
hash identifier (`m.hash`), inherited from the embedded
`RSASigningMethod`. -/
structure PSSSigningMethod where
  algo : String
  hash : Nat
  deriving DecidableEq, Repr

/-- Full observable result of one `Verify` call: the returned error
(`none` = nil = success), the cache afterwards, and counters for every
externally observable effect. -/
structure VerifyResult where
  outcome : Option VerifyError
  cache : Cache
  getPublicKeyCalls : Nat
  remoteVerifyCalls : Nat
  fallbackCalls : Nat
  decodeCalls : Nat
  hashCalls : Nat
  deriving DecidableEq, Repr

/-- `PSSSigningMethod.Verify` (source lines 22–51): type-dispatch on the
key argument (`*Config`, else `*rsa.PublicKey` → fallback verifier, else
`jwt.ErrInvalidKeyType`); decode the signature from base64url (wrapping
failure as `"decoding signature: %w"`); check the hash is available;
hash the signing string; then either delegate to the shared remote
helper `verifyRSAOrPSS` (when `cfg.verifyWithKMS`) or to
`localVerifyPSS`. -/
def PSSSigningMethod.verify (m : PSSSigningMethod) (env : Env)
    (signingString signature : String) (keyConfig : KeyConfig)
    (cache : Cache) : VerifyResult :=
  match keyConfig with
  | KeyConfig.config cfg =>
    match env.decodeSegment signature with
    | Except.error e => ⟨some (VerifyError.decodeError e), cache, 0, 0, 0, 1, 0⟩
    | Except.ok sig =>
      if env.hashAvailable m.hash then
        if cfg.verifyWithKMS then
          ⟨env.remoteVerify cfg m.algo (env.hashSum m.hash signingString) sig,
            cache, 0, 1, 0, 1, 1⟩
        else
          let r := localVerifyPSS env cfg m.hash
            (env.hashSum m.hash signingString) sig cache
          ⟨r.outcome, r.cache, r.getPublicKeyCalls, 0, 0, 1, 1⟩
      else ⟨some VerifyError.hashUnavailable, cache, 0, 0, 0, 1, 0⟩
  | KeyConfig.rsaPublicKey k =>
    ⟨env.fallbackVerify signingString signature k, cache, 0, 0, 1, 0, 0⟩
  | KeyConfig.nilKey => ⟨some VerifyError.invalidKeyType, cache, 0, 0, 0, 0, 0⟩
  | KeyConfig.other _ => ⟨some VerifyError.invalidKeyType, cache, 0, 0, 0, 0, 0⟩

/-- A key just added to the cache is what `Get` for that identifier returns. -/
theorem cacheGet_cacheAdd_self (c : Cache) (key : String) (v : PubKey) :
    cacheGet (cacheAdd c key v) key = some v := by
  simp [cacheGet, cacheAdd]

/-- The post-resolution check never touches the cache and makes no gateway
calls of its own. -/
theorem checkResolvedKey_frame (env : Env) (hash : Nat) (hashed sig : Bytes)
    (cache : Cache) (calls : Nat) (pk : PubKey) :
    (checkResolvedKey env hash hashed sig cache calls pk).cache = cache ∧
    (checkResolvedKey env hash hashed sig cache calls pk).getPublicKeyCalls = calls := by
  cases pk with
  | rsa k =>
    cases h : env.verifyPSS k hash hashed sig defaultPSSOptions <;>
      simp [checkResolvedKey, h]
  | nonRSA t => simp [checkResolvedKey]

/- Concrete fixtures used by the witness theorems. -/

def wMethod : PSSSigningMethod := ⟨"PS256", 5⟩

def wCfgLocal : Config := ⟨"test-key", false⟩

def wCfgRemote : Config := ⟨"test-key", true⟩

/-- Oracle environment where everything succeeds except the final
in-process PSS check, which reports a mismatch. -/
def envA : Env :=
  ⟨fun _ => Except.ok [1],
   fun _ => true,
   fun _ _ => [2],
   fun _ => Except.ok [3],
   fun _ => Except.ok (PubKey.rsa 7),
   fun _ _ _ _ _ => some "crypto/rsa: verification error",
   fun _ _ _ _ => some (VerifyError.remote "remote verification failed"),
   fun _ _ _ => none⟩

/-- Oracle environment whose base64url decoder rejects every input. -/
def envDecodeFail : Env :=
  ⟨fun _ => Except.error "illegal base64 data",
   fun _ => true,
   fun _ _ => [2],
   fun _ => Except.ok [3],
   fun _ => Except.ok (PubKey.rsa 7),
   fun _ _ _ _ _ => none,
   fun _ _ _ _ => none,
   fun _ _ _ => none⟩

/-- Oracle environment whose gateway `GetPublicKey` always fails. -/
def envGatewayFail : Env :=
  ⟨fun _ => Except.ok [1],
   fun _ => true,
   fun _ _ => [2],
   fun _ => Except.error "operation error KMS: GetPublicKey",
   fun _ => Except.ok (PubKey.rsa 7),
   fun _ _ _ _ _ => none,
   fun _ _ _ _ => none,
   fun _ _ _ => none⟩

/-- Oracle environment whose SPKI parser rejects the key material. -/
def envParseFail : Env :=
  ⟨fun _ => Except.ok [1],
   fun _ => true,
   fun _ _ => [2],
   fun _ => Except.ok [3],
   fun _ => Except.error "asn1: structure error",
   fun _ _ _ _ _ => none,
   fun _ _ _ _ => none,
   fun _ _ _ => none⟩

/-- Oracle environment whose SPKI parser yields a non-RSA (e.g. ECDSA)
public key. -/
def envNonRSA : Env :=
  ⟨fun _ => Except.ok [1],
   fun _ => true,
   fun _ _ => [2],
   fun _ => Except.ok [3],
   fun _ => Except.ok (PubKey.nonRSA 9),
   fun _ _ _ _ _ => none,
   fun _ _ _ _ => none,
   fun _ _ _ => none⟩

/-- C1: with verify-with-remote false, a well-formed signature and an
available hash, once the public key resolves to an RSA key `k` (from the
cache, or freshly fetched and parsed), `Verify` succeeds exactly when
`rsa.VerifyPSS` with the default (zero-value) PSS options accepts the
configured hash of the signing string; a cryptographic mismatch yields a
non-nil SignatureInvalid error, never a nil result. -/
theorem pss_local_verify_uses_default_pss_options
    (m : PSSSigningMethod) (env : Env) (s sigStr : String)
    (cfg : Config) (cache : Cache) (sig : Bytes) (k : Nat)
    (hremote : cfg.verifyWithKMS = false)
    (hdec : env.decodeSegment sigStr = Except.ok sig)
    (hav : env.hashAvailable m.hash = true)
    (hres : cacheGet cache cfg.kmsKeyID = some (PubKey.rsa k) ∨
      (cacheGet cache cfg.kmsKeyID = none ∧
       ∃ mat, env.getPublicKey cfg.kmsKeyID = Except.ok mat ∧
         env.parsePKIX mat = Except.ok (PubKey.rsa k))) :
    ((m.verify env s sigStr (KeyConfig.config cfg) cache).outcome = none ↔
      env.verifyPSS k m.hash (env.hashSum m.hash s) sig defaultPSSOptions = none) ∧
    (∀ cause,
      env.verifyPSS k m.hash (env.hashSum m.hash s) sig defaultPSSOptions = some cause →
      (m.verify env s sigStr (KeyConfig.config cfg) cache).outcome =
        some (VerifyError.signatureInvalid cause)) := by
  rcases hres with hc | ⟨hm, mat, hg, hp⟩ <;>
    cases hv : env.verifyPSS k m.hash (env.hashSum m.hash s) sig defaultPSSOptions <;>
    simp [PSSSigningMethod.verify, hdec, hav, hremote, localVerifyPSS,
      checkResolvedKey, hv, *]

/-- C1 witness: concrete run where the cached RSA key rejects the
signature and `Verify` reports SignatureInvalid. -/
theorem pss_local_verify_uses_default_pss_options_witness :
    wCfgLocal.verifyWithKMS = false ∧
    envA.decodeSegment "sig" = Except.ok [1] ∧
    envA.hashAvailable wMethod.hash = true ∧
    (cacheGet [("test-key", PubKey.rsa 7)] wCfgLocal.kmsKeyID = some (PubKey.rsa 7) ∨
      (cacheGet [("test-key", PubKey.rsa 7)] wCfgLocal.kmsKeyID = none ∧
       ∃ mat, envA.getPublicKey wCfgLocal.kmsKeyID = Except.ok mat ∧
         envA.parsePKIX mat = Except.ok (PubKey.rsa 7))) ∧
    (((wMethod.verify envA "s" "sig" (KeyConfig.config wCfgLocal)
        [("test-key", PubKey.rsa 7)]).outcome = none ↔
      envA.verifyPSS 7 wMethod.hash (envA.hashSum wMethod.hash "s") [1]
        defaultPSSOptions = none) ∧
    (∀ cause,
      envA.verifyPSS 7 wMethod.hash (envA.hashSum wMethod.hash "s") [1]
        defaultPSSOptions = some cause →
      (wMethod.verify envA "s" "sig" (KeyConfig.config wCfgLocal)
        [("test-key", PubKey.rsa 7)]).outcome =
        some (VerifyError.signatureInvalid cause))) :=
  ⟨rfl, rfl, rfl, Or.inl (by decide),
   pss_local_verify_uses_default_pss_options wMethod envA "s" "sig" wCfgLocal
     [("test-key", PubKey.rsa 7)] [1] 7 rfl rfl rfl (Or.inl (by decide))⟩

/-- C2: a key argument that is neither a Signing Configuration nor a raw
RSA public key makes PSS `Verify` fail with InvalidKeyType, for all
signing strings and signatures. -/
theorem pss_verify_unknown_key_type_invalid
    (m : PSSSigningMethod) (env : Env) (s sigStr : String) (cache : Cache)
    (kc : KeyConfig)
    (hnc : ∀ c, kc ≠ KeyConfig.config c)
    (hnk : ∀ k, kc ≠ KeyConfig.rsaPublicKey k) :
    (m.verify env s sigStr kc cache).outcome = some VerifyError.invalidKeyType := by
  cases kc with
  | config c => exact absurd rfl (hnc c)
  | rsaPublicKey k => exact absurd rfl (hnk k)
  | nilKey => rfl
  | other t => rfl

/-- C2 witness: a string-typed key argument is rejected with
InvalidKeyType. -/
theorem pss_verify_unknown_key_type_invalid_witness :
    (∀ c, KeyConfig.other "a string key" ≠ KeyConfig.config c) ∧
    (∀ k, KeyConfig.other "a string key" ≠ KeyConfig.rsaPublicKey k) ∧
    (wMethod.verify envA "s" "sig" (KeyConfig.other "a string key") []).outcome =
      some VerifyError.invalidKeyType :=
  ⟨fun _ h => KeyConfig.noConfusion h, fun _ h => KeyConfig.noConfusion h,
   pss_verify_unknown_key_type_invalid wMethod envA "s" "sig" []
     (KeyConfig.other "a string key")
     (fun _ h => KeyConfig.noConfusion h) (fun _ h => KeyConfig.noConfusion h)⟩

/-- C3: a raw RSA public key makes PSS `Verify` delegate verbatim to the
standard in-process fallback verifier, with the cache untouched, zero
gateway `GetPublicKey` calls and zero remote-verify delegations. -/
theorem pss_verify_raw_key_delegates_to_fallback
    (m : PSSSigningMethod) (env : Env) (s sigStr : String) (cache : Cache) (k : Nat) :
    m.verify env s sigStr (KeyConfig.rsaPublicKey k) cache =
      ⟨env.fallbackVerify s sigStr k, cache, 0, 0, 1, 0, 0⟩ := rfl

/-- C4: with a Signing Configuration and a malformed base64url signature,
PSS `Verify` fails with a DecodeError wrapping the decoder's cause,
before any gateway operation or cache modification. -/
theorem pss_verify_decode_error_before_gateway
    (m : PSSSigningMethod) (env : Env) (s sigStr : String)
    (cfg : Config) (cache : Cache) (e : String)
    (hdec : env.decodeSegment sigStr = Except.error e) :
    m.verify env s sigStr (KeyConfig.config cfg) cache =
      ⟨some (VerifyError.decodeError e), cache, 0, 0, 0, 1, 0⟩ := by
  simp [PSSSigningMethod.verify, hdec]

/-- C4 witness: concrete run with a rejecting decoder; zero gateway calls
and an untouched cache. -/
theorem pss_verify_decode_error_before_gateway_witness :
    envDecodeFail.decodeSegment "%%%" = Except.error "illegal base64 data" ∧
    wMethod.verify envDecodeFail "s" "%%%" (KeyConfig.config wCfgLocal)
        [("test-key", PubKey.rsa 7)] =
      ⟨some (VerifyError.decodeError "illegal base64 data"),
       [("test-key", PubKey.rsa 7)], 0, 0, 0, 1, 0⟩ :=
  ⟨rfl,
   pss_verify_decode_error_before_gateway wMethod envDecodeFail "s" "%%%"
     wCfgLocal [("test-key", PubKey.rsa 7)] "illegal base64 data" rfl⟩

/-- C5: with verify-with-remote true, a well-formed signature and an
available hash, PSS `Verify` returns exactly the outcome of the shared
algorithm-aware remote helper applied to the configuration, the
algorithm tag, the hash of the signing string and the decoded signature;
the cache is neither read into the result nor modified and no
`GetPublicKey` call is made. -/
theorem pss_verify_remote_delegates_to_helper
    (m : PSSSigningMethod) (env : Env) (s sigStr : String)
    (cfg : Config) (cache : Cache) (sig : Bytes)
    (hkms : cfg.verifyWithKMS = true)
    (hdec : env.decodeSegment sigStr = Except.ok sig)
    (hav : env.hashAvailable m.hash = true) :
    m.verify env s sigStr (KeyConfig.config cfg) cache =
      ⟨env.remoteVerify cfg m.algo (env.hashSum m.hash s) sig,
       cache, 0, 1, 0, 1, 1⟩ := by
  simp [PSSSigningMethod.verify, hdec, hav, hkms]

/-- C5 witness: concrete remote-path run returning the helper's outcome
with the cache unchanged. -/
theorem pss_verify_remote_delegates_to_helper_witness :
    wCfgRemote.verifyWithKMS = true ∧
    envA.decodeSegment "sig" = Except.ok [1] ∧
    envA.hashAvailable wMethod.hash = true ∧
    wMethod.verify envA "s" "sig" (KeyConfig.config wCfgRemote) [] =
      ⟨envA.remoteVerify wCfgRemote wMethod.algo (envA.hashSum wMethod.hash "s") [1],
       [], 0, 1, 0, 1, 1⟩ :=
  ⟨rfl, rfl, rfl,
   pss_verify_remote_delegates_to_helper wMethod envA "s" "sig" wCfgRemote [] [1]
     rfl rfl rfl⟩

/-- C6: when the cache already holds an entry for the configured key
identifier, local verification uses exactly that cached key (the result
is the post-resolution check on it), performs zero gateway
`GetPublicKey` calls, and leaves the cache unchanged. -/
theorem local_verify_cache_hit_no_gateway
    (env : Env) (cfg : Config) (hash : Nat) (hashed sig : Bytes)
    (cache : Cache) (pk : PubKey)
    (hcache : cacheGet cache cfg.kmsKeyID = some pk) :
    localVerifyPSS env cfg hash hashed sig cache =
      checkResolvedKey env hash hashed sig cache 0 pk ∧
    (localVerifyPSS env cfg hash hashed sig cache).getPublicKeyCalls = 0 ∧
    (localVerifyPSS env cfg hash hashed sig cache).cache = cache := by
  have hstep : localVerifyPSS env cfg hash hashed sig cache =
      checkResolvedKey env hash hashed sig cache 0 pk := by
    simp [localVerifyPSS, hcache]
  refine ⟨hstep, ?_, ?_⟩
  · rw [hstep]; exact (checkResolvedKey_frame env hash hashed sig cache 0 pk).2
  · rw [hstep]; exact (checkResolvedKey_frame env hash hashed sig cache 0 pk).1

/-- C6 witness: a cached RSA key for "test-key" is used directly with
zero gateway calls. -/
theorem local_verify_cache_hit_no_gateway_witness :
    cacheGet [("test-key", PubKey.rsa 7)] wCfgLocal.kmsKeyID = some (PubKey.rsa 7) ∧
    (localVerifyPSS envA wCfgLocal 5 [2] [1] [("test-key", PubKey.rsa 7)] =
      checkResolvedKey envA 5 [2] [1] [("test-key", PubKey.rsa 7)] 0 (PubKey.rsa 7) ∧
    (localVerifyPSS envA wCfgLocal 5 [2] [1] [("test-key", PubKey.rsa 7)]).getPublicKeyCalls = 0 ∧
    (localVerifyPSS envA wCfgLocal 5 [2] [1] [("test-key", PubKey.rsa 7)]).cache =
      [("test-key", PubKey.rsa 7)]) :=
  ⟨by decide,
   local_verify_cache_hit_no_gateway envA wCfgLocal 5 [2] [1]
     [("test-key", PubKey.rsa 7)] (PubKey.rsa 7) (by decide)⟩

/-- C7: on a cache miss, a failing gateway `GetPublicKey` yields a
GatewayError wrapping the cause, and unparseable key material yields a
KeyParseError; in both cases the cache is left unchanged (the single
failed fetch is recorded). -/
theorem local_verify_fetch_errors_leave_cache
    (env : Env) (cfg : Config) (hash : Nat) (hashed sig : Bytes) (cache : Cache)
    (hmiss : cacheGet cache cfg.kmsKeyID = none) :
    (∀ e, env.getPublicKey cfg.kmsKeyID = Except.error e →
      localVerifyPSS env cfg hash hashed sig cache =
        ⟨some (VerifyError.gatewayError e), cache, 1⟩) ∧
    (∀ mat e, env.getPublicKey cfg.kmsKeyID = Except.ok mat →
      env.parsePKIX mat = Except.error e →
      localVerifyPSS env cfg hash hashed sig cache =
        ⟨some (VerifyError.keyParseError e), cache, 1⟩) := by
  constructor
  · intro e hg
    simp [localVerifyPSS, hmiss, hg]
  · intro mat e hg hp
    simp [localVerifyPSS, hmiss, hg, hp]

/-- C7 witness: on an empty cache the gateway-failure branch applies, and
the cache stays empty. -/
theorem local_verify_fetch_errors_leave_cache_witness :
    cacheGet [] wCfgLocal.kmsKeyID = none ∧
    ((∀ e, envGatewayFail.getPublicKey wCfgLocal.kmsKeyID = Except.error e →
      localVerifyPSS envGatewayFail wCfgLocal 5 [2] [1] [] =
        ⟨some (VerifyError.gatewayError e), [], 1⟩) ∧
    (∀ mat e, envGatewayFail.getPublicKey wCfgLocal.kmsKeyID = Except.ok mat →
      envGatewayFail.parsePKIX mat = Except.error e →
      localVerifyPSS envGatewayFail wCfgLocal 5 [2] [1] [] =
        ⟨some (VerifyError.keyParseError e), [], 1⟩)) :=
  ⟨rfl,
   local_verify_fetch_errors_leave_cache envGatewayFail wCfgLocal 5 [2] [1] [] rfl⟩

/-- C8: if the resolved key (cached, or freshly fetched and parsed) is
not of the RSA family, local verification fails with the KeyTypeError
whose message is "invalid key type for key". -/
theorem local_verify_non_rsa_key_type_error
    (env : Env) (cfg : Config) (hash : Nat) (hashed sig : Bytes)
    (cache : Cache) (t : Nat)
    (hres : cacheGet cache cfg.kmsKeyID = some (PubKey.nonRSA t) ∨
      (cacheGet cache cfg.kmsKeyID = none ∧
       ∃ mat, env.getPublicKey cfg.kmsKeyID = Except.ok mat ∧
         env.parsePKIX mat = Except.ok (PubKey.nonRSA t))) :
    (localVerifyPSS env cfg hash hashed sig cache).outcome =
      some (VerifyError.keyTypeError "invalid key type for key") := by
  rcases hres with hc | ⟨hm, mat, hg, hp⟩ <;>
    simp [localVerifyPSS, checkResolvedKey, *]

/-- C8 witness: a cached ECDSA-style key triggers the KeyTypeError. -/
theorem local_verify_non_rsa_key_type_error_witness :
    (cacheGet [("test-key", PubKey.nonRSA 9)] wCfgLocal.kmsKeyID =
        some (PubKey.nonRSA 9) ∨
      (cacheGet [("test-key", PubKey.nonRSA 9)] wCfgLocal.kmsKeyID = none ∧
       ∃ mat, envA.getPublicKey wCfgLocal.kmsKeyID = Except.ok mat ∧
         envA.parsePKIX mat = Except.ok (PubKey.nonRSA 9))) ∧
    (localVerifyPSS envA wCfgLocal 5 [2] [1] [("test-key", PubKey.nonRSA 9)]).outcome =
      some (VerifyError.keyTypeError "invalid key type for key") :=
  ⟨Or.inl (by decide),
   local_verify_non_rsa_key_type_error envA wCfgLocal 5 [2] [1]
     [("test-key", PubKey.nonRSA 9)] 9 (Or.inl (by decide))⟩

/-- C9: a nil key argument fails with InvalidKeyType, for all signing
strings and signatures, with no decode, no hashing, no cache change, no
gateway call, no remote delegation and no fallback delegation. -/
theorem pss_verify_nil_key_invalid_no_effects
    (m : PSSSigningMethod) (env : Env) (s sigStr : String) (cache : Cache) :
    m.verify env s sigStr KeyConfig.nilKey cache =
      ⟨some VerifyError.invalidKeyType, cache, 0, 0, 0, 0, 0⟩ := rfl

/-- C10: when a cache miss fetches and parses a non-RSA key, that key is
added to the cache before the RSA assertion fails, so a subsequent local
verify for the same identifier (any digest and signature) hits the cache
and fails with the same KeyTypeError without a further `GetPublicKey`
call. -/
theorem local_verify_non_rsa_key_is_cached
    (env : Env) (cfg : Config) (hash : Nat) (hashed sig : Bytes)
    (cache : Cache) (mat : Bytes) (t : Nat)
    (hmiss : cacheGet cache cfg.kmsKeyID = none)
    (hget : env.getPublicKey cfg.kmsKeyID = Except.ok mat)
    (hparse : env.parsePKIX mat = Except.ok (PubKey.nonRSA t)) :
    localVerifyPSS env cfg hash hashed sig cache =
      ⟨some (VerifyError.keyTypeError "invalid key type for key"),
       cacheAdd cache cfg.kmsKeyID (PubKey.nonRSA t), 1⟩ ∧
    ∀ hashed2 sig2,
      localVerifyPSS env cfg hash hashed2 sig2
          (cacheAdd cache cfg.kmsKeyID (PubKey.nonRSA t)) =
        ⟨some (VerifyError.keyTypeError "invalid key type for key"),
         cacheAdd cache cfg.kmsKeyID (PubKey.nonRSA t), 0⟩ := by
  constructor
  · simp [localVerifyPSS, hmiss, hget, hparse, checkResolvedKey]
  · intro hashed2 sig2
    simp [localVerifyPSS, cacheGet_cacheAdd_self, checkResolvedKey]

/-- C10 witness: concrete miss-then-hit run with a non-RSA key, one
fetch on the first call and zero on the second. -/
theorem local_verify_non_rsa_key_is_cached_witness :
    cacheGet [] wCfgLocal.kmsKeyID = none ∧
    envNonRSA.getPublicKey wCfgLocal.kmsKeyID = Except.ok [3] ∧
    envNonRSA.parsePKIX [3] = Except.ok (PubKey.nonRSA 9) ∧
    (localVerifyPSS envNonRSA wCfgLocal 5 [2] [1] [] =
      ⟨some (VerifyError.keyTypeError "invalid key type for key"),
       cacheAdd [] wCfgLocal.kmsKeyID (PubKey.nonRSA 9), 1⟩ ∧
    ∀ hashed2 sig2,
      localVerifyPSS envNonRSA wCfgLocal 5 hashed2 sig2
          (cacheAdd [] wCfgLocal.kmsKeyID (PubKey.nonRSA 9)) =
        ⟨some (VerifyError.keyTypeError "invalid key type for key"),
         cacheAdd [] wCfgLocal.kmsKeyID (PubKey.nonRSA 9), 0⟩) :=
  ⟨rfl, rfl, rfl,
   local_verify_non_rsa_key_is_cached envNonRSA wCfgLocal 5 [2] [1] [] [3] 9
     rfl rfl rfl⟩

end Jwtkms
